import Mathlib

/-!
# Verification of the Sphinx_Doc documentation toolkit

Shallow embedding of the repository's Python utilities in Lean 4, with
theorems settling the specification claims.  Every definition is a direct
translation of the corresponding Python function; external effects
(AWS calls, the filesystem, interactive input) are made explicit as
parameters or as values threaded through the functions.
-/

set_option autoImplicit false

namespace SphinxDoc

/-! ## Python string primitives

Structural-recursive models of the Python `str` operations the utilities
use, over `List Char` so that concrete computations reduce inside the
kernel.  `pyStrip` is `str.strip()`, `splitOnChar`/`splitOnSub` are
`str.split(sep)` for a one-character / multi-character separator. -/

def pyIsSpace (c : Char) : Bool :=
  c == ' ' || c == '\t' || c == '\n' || c == '\r' || c == '\x0b' || c == '\x0c'

def pyStrip (l : List Char) : List Char :=
  ((l.dropWhile pyIsSpace).reverse.dropWhile pyIsSpace).reverse

def splitOnChar (c : Char) : List Char → List (List Char)
  | [] => [[]]
  | x :: xs =>
    match splitOnChar c xs with
    | [] => [[]]
    | g :: gs => if x = c then [] :: g :: gs else (x :: g) :: gs

def splitOnSubAux (sep : List Char) : Nat → List Char → List Char →
    List (List Char)
  | 0, acc, _ => [acc.reverse]
  | _ + 1, acc, [] => [acc.reverse]
  | fuel + 1, acc, x :: xs =>
    if sep.isPrefixOf (x :: xs) then
      acc.reverse :: splitOnSubAux sep fuel [] ((x :: xs).drop sep.length)
    else
      splitOnSubAux sep fuel (x :: acc) xs

def splitOnSub (sep s : List Char) : List (List Char) :=
  splitOnSubAux sep (s.length + 1) [] s

/-! ## Sample documented modules (`src/shapes_modules/shape1.py`,
`sweets_modules/sweet2.py`)

Module A ("shapes") and module B ("sweets") are mirrored fixtures.
Python's float division in module B's `file1_func4` is modelled as exact
rational division (the claim's reference value `5/3` is the mathematical
quotient). -/

namespace shape1

def file1_func2 (param1 param2 : Int) : Int :=
  param1 + param2

def file1_func4 (param1 : String) (param2 : Int) (param3 : Bool) : Int :=
  if param3 && (param1 == "Y") then param2 * 3 else 10

def file1_func5 (_param1 : String) (_param2 : Int) : Bool :=
  true

end shape1

namespace sweet2

def file1_func2 (param1 param2 : Int) : Int :=
  param1 - param2

def file1_func4 (param1 : String) (param2 : Int) (param3 : Bool) : Rat :=
  if param3 && (param1 == "Y") then (param2 : Rat) / 3 else 10

def file1_func5 (_param1 : String) (_param2 : Int) : Bool :=
  false

end sweet2

/-! ## JavaScript Reference Generator (`utilities/generate_js_rst.py`)

`extract_functions_from_js` scans stripped lines beginning with
`function ` or `async function `; the collected "name" is
`line.split('function')[1].split('{')[0].strip()`.  `buildRstForModule`
is the body of the per-file loop of `generate_rst_from_js`: the page
header plus one autofunction entry per collected function, written
unconditionally (also when no function was found). -/

def extract_functions_from_js (js_content : String) : List String :=
  (splitOnChar '\n' js_content.toList).filterMap fun rawLine =>
    let line := pyStrip rawLine
    if "function ".toList.isPrefixOf line ||
        "async function ".toList.isPrefixOf line then
      some (String.mk (pyStrip
        ((splitOnChar '\x7b' ((splitOnSub "function".toList line).getD 1 [])).headD [])))
    else
      none

def buildRstForModule (module_name : String) (js_content : String) : String :=
  let supp := String.mk (List.replicate module_name.length '=')
  let base := module_name ++ "\n" ++ supp ++ "\n\n.. js:module:: " ++
    module_name ++ "\n\n"
  (extract_functions_from_js js_content).foldl
    (fun acc func => acc ++ ".. js:autofunction:: " ++ module_name ++ "." ++
      func ++ "\n\n")
    base

/-! ## Association-list dictionary operations

Python `dict` assignment `d[k] = v` (replace in place if the key exists,
append otherwise), lookup with default, and `d.pop(k)`. -/

instance {ε α : Type} [DecidableEq ε] [DecidableEq α] :
    DecidableEq (Except ε α) := fun x y =>
  match x, y with
  | .ok a, .ok b =>
    if h : a = b then isTrue (by rw [h])
    else isFalse (fun he => h (by injection he))
  | .error a, .error b =>
    if h : a = b then isTrue (by rw [h])
    else isFalse (fun he => h (by injection he))
  | .ok _, .error _ => isFalse (fun he => Except.noConfusion he)
  | .error _, .ok _ => isFalse (fun he => Except.noConfusion he)

def dictSet {β : Type} : List (String × β) → String → β → List (String × β)
  | [], k, v => [(k, v)]
  | (k', v') :: rest, k, v =>
    if k' = k then (k, v) :: rest else (k', v') :: dictSet rest k v

def dictGetD {β : Type} (d : List (String × β)) (k : String) (dflt : β) : β :=
  (((d.find? (fun p => p.1 == k)).map Prod.snd)).getD dflt

def dictPop {β : Type} (d : List (String × β)) (k : String) : List (String × β) :=
  d.eraseP (fun p => p.1 == k)

def listIndex? (target : List Char) : List (List Char) → Option Nat
  | [] => none
  | l :: ls => if l = target then some 0 else (listIndex? target ls).map (· + 1)

/-! ## OpenAPI Spec Generator v1
(`utilities/generate_openapi_spec.py`, `_parse_docstring_specification`)

`matchField fld line` models `re.match(r'^Fld:\s*(.+)$', line, re.IGNORECASE)`
on an already-stripped line, `fld` being the lowercase field text including
the colon: the line must start (case-insensitively) with the field, and the
group is the remainder with leading whitespace dropped, required non-empty.

`parseDocstringV1` is `_parse_docstring_specification`: the per-line field
loop assigns `spec['summary']` / `spec['method']` / `spec['description']`
on *every* match, then the `Request:`/`Response:` block extraction runs
inside a `try` whose `lines.index` calls raise `ValueError` unless both
marker lines are present (`except ValueError: pass` keeps the defaults).
The request-side properties are computed by the source but never stored in
the spec, so only the response schema is modelled as updated. -/

structure PropEntry where
  type : String := "string"
  description : String
  deriving Repr, DecidableEq

structure SchemaV1 where
  type : String := "object"
  properties : Option (List (String × PropEntry)) := none
  deriving Repr, DecidableEq

structure DocSpecV1 where
  summary : String
  method : Option String
  description : String
  responseSchema : SchemaV1
  deriving Repr, DecidableEq

def matchField (field line : List Char) : Option (List Char) :=
  if (line.take field.length).map Char.toLower = field then
    let rest := (line.drop field.length).dropWhile pyIsSpace
    if rest.isEmpty then none else some rest
  else none

def fieldsStep (acc : DocSpecV1) (line : List Char) : DocSpecV1 :=
  let acc1 := match matchField "summary:".toList line with
    | some v => { acc with summary := String.mk v }
    | none => acc
  let acc2 := match matchField "method:".toList line with
    | some v => { acc1 with method := some (String.mk v) }
    | none => acc1
  match matchField "description:".toList line with
  | some v => { acc2 with description := String.mk v }
  | none => acc2

def buildProps (details : List (List Char)) : List (String × PropEntry) :=
  details.foldl
    (fun props detail =>
      if detail.contains ':' then
        let param := detail.takeWhile (fun c => c ≠ ':')
        let desc := (detail.dropWhile (fun c => c ≠ ':')).drop 1
        dictSet props (String.mk (pyStrip param))
          { type := "string", description := String.mk (pyStrip desc) }
      else props)
    []

def docLinesV1 (docstring : String) : List (List Char) :=
  (splitOnChar '\n' docstring.toList).map pyStrip

def parseDocstringV1 (docstring : String) : DocSpecV1 :=
  let lines := docLinesV1 docstring
  let spec0 : DocSpecV1 :=
    { summary := "", method := none, description := docstring,
      responseSchema := {} }
  let spec1 := lines.foldl fieldsStep spec0
  match listIndex? "Request:".toList lines,
      listIndex? "Response:".toList lines with
  | some _, some respIdx =>
    { spec1 with
      responseSchema :=
        { type := "object",
          properties := some (buildProps (lines.drop (respIdx + 1))) } }
  | _, _ => spec1

/-! ## OpenAPI Spec Generator v2 (`utilities/generate_openapi_spec_v2.py`)

### Path-parameter enrichment (`ParameterParser`)

`scanPathParamsAux` models `re.finditer(r'[{<]([^}>]+)[}>]', path)`: at an
opening `{`/`<`, the group is the maximal non-empty run of characters other
than `}`/`>`, which must be followed by a closing `}`/`>`; scanning resumes
after the match (or one character further on failure), exactly the regex
engine's left-to-right non-overlapping behaviour.  The fuel argument only
bounds the recursion; `path.length + 1` steps always suffice. -/

structure ParamV2 where
  name : String
  in_ : String
  required : Bool
  schemaType : String
  description : String
  deriving Repr, DecidableEq

def scanPathParamsAux : Nat → List Char → List (List Char)
  | 0, _ => []
  | _ + 1, [] => []
  | fuel + 1, c :: rest =>
    if c = '\x7b' || c = '<' then
      let grp := rest.takeWhile (fun d => !(d = '\x7d' || d = '>'))
      match grp, rest.drop grp.length with
      | _ :: _, _ :: after => grp :: scanPathParamsAux fuel after
      | _, _ => scanPathParamsAux fuel rest
    else scanPathParamsAux fuel rest

def parse_path_parameters (path : String) : List ParamV2 :=
  (scanPathParamsAux (path.toList.length + 1) path.toList).map fun grp =>
    { name := String.mk grp, in_ := "path", required := true,
      schemaType := "string",
      description := "Path parameter: " ++ String.mk grp }

structure EndpointInfo where
  path : String
  methods : List String
  summary : String
  description : String
  parameters : List ParamV2
  request_schema : SchemaV1
  response_schema : SchemaV1
  content_types : List String
  security : List (String × String)
  errors : List (String × String)
  deriving Repr, DecidableEq

/-- One step of `ParameterParser.enhance_parameters`' loop: the accumulator
is the parameter list being extended together with the `existing_names`
set (modelled as the list of names seen so far). -/
def enhanceStep (acc : List ParamV2 × List String) (param : ParamV2) :
    List ParamV2 × List String :=
  if param.name ∈ acc.2 then acc
  else (acc.1 ++ [param], acc.2 ++ [param.name])

def enhance_parameters (endpoint_info : EndpointInfo) : EndpointInfo :=
  let path_params := parse_path_parameters endpoint_info.path
  let existing_names := endpoint_info.parameters.map (fun p => p.name)
  { endpoint_info with
    parameters :=
      (path_params.foldl enhanceStep
        (endpoint_info.parameters, existing_names)).1 }

/-! ### Document assembly (`OpenAPISpecGenerator.generate_specification`)

`buildOperationV2` is the operation object built for one endpoint/method
pair, including the error responses folded into `responses` and the
security requirement injected from the manifest group's auth-type label.
`assembleGroup` is the endpoint/method double loop for the files of one
auth-type group, as the list of `(path, lowercased method, operation)`
entries inserted into `paths`. -/

structure RespEntry where
  description : String
  content : List (String × SchemaV1) := []
  deriving Repr, DecidableEq

structure OperationV2 where
  summary : String
  description : String
  parameters : List ParamV2
  responses : List (String × RespEntry)
  security : Option (List (String × List String))
  deriving Repr, DecidableEq

def lowerStr (s : String) : String :=
  String.mk (s.toList.map Char.toLower)

def buildOperationV2 (auth_type : String) (endpoint : EndpointInfo) :
    OperationV2 :=
  { summary := endpoint.summary
    description := endpoint.description
    parameters := endpoint.parameters
    responses :=
      endpoint.errors.foldl
        (fun acc p => dictSet acc p.1 { description := p.2 })
        [("200",
          { description := "Successful response",
            content :=
              endpoint.content_types.map
                (fun ct => (ct, endpoint.response_schema)) })]
    security :=
      if auth_type = "api_key" then some [("ApiKeyAuth", [])]
      else if auth_type = "cognito" then some [("CognitoAuth", [])]
      else none }

def assembleGroup (auth_type : String) (endpoints : List EndpointInfo) :
    List (String × String × OperationV2) :=
  endpoints.flatMap fun endpoint =>
    endpoint.methods.map fun method =>
      (endpoint.path, lowerStr method, buildOperationV2 auth_type endpoint)

/-! ### Express-oriented strategy (`TypeScriptExpressDetector.detect_endpoints`)

`findIdx2 a b s` is the index of the first adjacent occurrence of the
two-character sequence `a b` in `s`.  `findComment s` models
`re.search(r'/\*(.*?)\*/', s, re.DOTALL)` and returns the lazy group: the
leftmost overall match must start at the first `/*` of `s` (a closing `*/`
after a later opener would also close the first one), and the lazy group
runs to the first `*/` at least two characters later.

`matchRouteAt` attempts the route-registration regex
`(app|router)\.(get|post|put|delete)\s*\(\s*['"]([^'"]+)['"]` at the head
of its argument, returning the consumed length, the verb and the quoted
path; `routeMatches` is `re.finditer` of that pattern (left-to-right,
non-overlapping, advancing one character on failure).

`expressDocstringSource content start` is the detector's pairing of a route
match starting at offset `start` with a docstring source:
`re.search(comment_pattern, file_content[:match.start()])`, i.e.
`findComment` of the prefix.  `expressPairs` lists each route match with
its paired docstring source. -/

def findIdx2 (a b : Char) : List Char → Option Nat
  | [] => none
  | [_] => none
  | x :: y :: rest =>
    if x = a ∧ y = b then some 0 else (findIdx2 a b (y :: rest)).map (· + 1)

def findComment (s : List Char) : Option (List Char) :=
  match findIdx2 '/' '*' s with
  | none => none
  | some i =>
    match findIdx2 '*' '/' (s.drop (i + 2)) with
    | none => none
    | some j => some ((s.drop (i + 2)).take j)

def stripPre (pat s : List Char) : Option (List Char) :=
  if pat.isPrefixOf s then some (s.drop pat.length) else none

def matchObjAt (s : List Char) : Option (Nat × List Char) :=
  match stripPre "app.".toList s with
  | some r => some (4, r)
  | none =>
    match stripPre "router.".toList s with
    | some r => some (7, r)
    | none => none

def matchVerbAt (s : List Char) : Option (Nat × String × List Char) :=
  match stripPre "get".toList s with
  | some r => some (3, "get", r)
  | none =>
    match stripPre "post".toList s with
    | some r => some (4, "post", r)
    | none =>
      match stripPre "put".toList s with
      | some r => some (3, "put", r)
      | none =>
        match stripPre "delete".toList s with
        | some r => some (6, "delete", r)
        | none => none

def isQuote (c : Char) : Bool :=
  c = '"' || c.toNat = 39

def matchRouteAt (s : List Char) : Option (Nat × String × String) :=
  match matchObjAt s with
  | none => none
  | some (n1, r1) =>
    match matchVerbAt r1 with
    | none => none
    | some (n2, verb, r2) =>
      let ws1 := (r2.takeWhile pyIsSpace).length
      match r2.drop ws1 with
      | '(' :: r4 =>
        let ws2 := (r4.takeWhile pyIsSpace).length
        match r4.drop ws2 with
        | q :: r6 =>
          if isQuote q then
            let path := r6.takeWhile (fun c => !(isQuote c))
            match r6.drop path.length, path with
            | _ :: _, _ :: _ =>
              some (n1 + n2 + ws1 + 1 + ws2 + 1 + path.length + 1, verb,
                String.mk path)
            | _, _ => none
          else none
        | [] => none
      | _ => none

def scanRoutes : Nat → List Char → Nat → List (Nat × String × String)
  | 0, _, _ => []
  | fuel + 1, s, pos =>
    match matchRouteAt s with
    | some (len, verb, path) =>
      (pos, verb, path) :: scanRoutes fuel (s.drop len) (pos + len)
    | none =>
      match s with
      | [] => []
      | _ :: rest => scanRoutes fuel rest (pos + 1)

def routeMatches (content : List Char) : List (Nat × String × String) :=
  scanRoutes (content.length + 1) content 0

def expressDocstringSource (content : List Char) (start : Nat) :
    Option (List Char) :=
  findComment (content.take start)

def expressPairs (content : List Char) :
    List (Nat × String × String × Option (List Char)) :=
  (routeMatches content).map fun m =>
    (m.1, m.2.1, m.2.2, expressDocstringSource content m.1)

def commentBlocksAux : Nat → List Char → List (List Char)
  | 0, _ => []
  | fuel + 1, s =>
    match findIdx2 '/' '*' s with
    | none => []
    | some i =>
      match findIdx2 '*' '/' (s.drop (i + 2)) with
      | none => []
      | some j =>
        (s.drop (i + 2)).take j ::
          commentBlocksAux fuel (s.drop (i + 2 + j + 2))

/-- The `/* ... */` comment blocks of a text, in order of occurrence. -/
def commentBlocks (s : List Char) : List (List Char) :=
  commentBlocksAux (s.length + 1) s

/-- Modelled from the spec: the claim pairs a route match with "the nearest
preceding `/* ... */` comment block in the file (the closest comment ending
before the match)", i.e. the *last* comment block of the preceding text.
This follows the claim's words, for comparison with
`expressDocstringSource`, which is translated from the source. -/
def nearestPrecedingCommentSpec (s : List Char) : Option (List Char) :=
  (commentBlocks s).getLast?

/-- The file used to separate the two pairing rules: two comment blocks
(bodies `" A "` and `" B "`) precede a single route registration. -/
def twoCommentContent : List Char :=
  "/* A */ /* B */ app.get(\"/x\", h)".toList

/-! ## Auth Token Issuance Service (`utilities/auth_server.py`)

The pydantic `TokenRequest`/`TokenResponse` records and the
`POST /getToken` handler.  The outcomes of the external AWS calls (SigV4
signing, Cognito `initiate_auth`, Lambda `invoke`) are supplied through a
`ServerEnv` value; raised `HTTPException`s are the `Except` error channel.
The handler's documentation-regeneration side effects (`create_graphql_rst`
and the sphinx rebuild) write files and never alter the HTTP response, so
they are not part of the response model. -/

structure TokenRequest where
  auth_type : String
  access_key : Option String := none
  secret_key : Option String := none
  session_token : Option String := none
  username : Option String := none
  password : Option String := none
  api_key : Option String := none
  client_id : Option String := none
  region : Option String := none
  lambda_payload : Option (List (String × String)) := none
  lambda_function_name : Option String := none
  api_url : Option String := none
  method : String := "POST"
  gql_endpoint : String
  spec_endpoint : String
  deriving Repr, DecidableEq

structure TokenResponse where
  authorization_header : String
  token_type : String
  additional_headers : Option (List (String × String)) := none
  deriving Repr, DecidableEq

/-- `fastapi.HTTPException` — which subclasses Python's `Exception`. -/
structure HTTPErr where
  status_code : Nat
  detail : String
  deriving Repr, DecidableEq

/-- Python truthiness of an optional string (`None` and `""` are falsy),
as used by the handler's `all([...])` checks. -/
def truthyS : Option String → Bool
  | none => false
  | some s => !s.data.isEmpty

/-- Python truthiness of an optional dict (`None` and `{}` are falsy). -/
def truthyD : Option (List (String × String)) → Bool
  | none => false
  | some d => !d.isEmpty

/-- `str()` of an `HTTPException`: Starlette renders
`f"{status_code}: {detail}"`. -/
def strHTTPErr (e : HTTPErr) : String :=
  toString e.status_code ++ ": " ++ e.detail

/-- The parsed payload returned by the invoked Lambda authorizer:
`statusCode` defaults to 200 (`response_payload.get('statusCode', 200)`),
`body` is absent unless provided, `context` is the authorizer's context
object (its entries already stringified, as `str(value)` does). -/
structure LambdaResp where
  statusCode : Nat := 200
  body : Option String := none
  context : List (String × String) := []
  deriving Repr, DecidableEq

/-- Outcomes of the handler's external AWS calls: the SigV4 signer's
`Authorization` header value, the Cognito `initiate_auth` result (`IdToken`
or the provider exception's text) and the Lambda `invoke` result (parsed
response payload or the exception's text). -/
structure ServerEnv where
  sigv4Header : String
  cognitoResult : Except String String
  lambdaResult : Except String LambdaResp
  deriving Repr

def get_cognito_token (env : ServerEnv) : Except HTTPErr String :=
  match env.cognitoResult with
  | .ok tok => .ok tok
  | .error msg => .error ⟨401, msg⟩

/-- The header dictionary built from the Lambda authorizer's context:
`{'Authorization': context.get('authorizationToken', '')}` extended, in
context order, with `headers[f'X-Lambda-{key}'] = value` for every entry
other than the authorization token itself. -/
def buildLambdaHeaders (context : List (String × String)) :
    List (String × String) :=
  context.foldl
    (fun headers p =>
      if p.1 ≠ "authorizationToken" then
        dictSet headers ("X-Lambda-" ++ p.1) p.2
      else headers)
    [("Authorization", dictGetD context "authorizationToken" "")]

def get_lambda_token (env : ServerEnv) :
    Except HTTPErr (List (String × String)) :=
  match env.lambdaResult with
  | .error msg => .error ⟨500, "Lambda authorization failed: " ++ msg⟩
  | .ok resp =>
    if resp.statusCode ≠ 200 then
      -- the `raise HTTPException(401, ...)` for a denying authorizer is
      -- itself caught by this function's own `except Exception` clause and
      -- re-raised as a 500 with the stringified exception as detail
      .error ⟨500, "Lambda authorization failed: " ++
        strHTTPErr ⟨401, "Lambda authorizer denied access: " ++
          resp.body.getD "No details provided"⟩⟩
    else
      .ok (buildLambdaHeaders resp.context)

/-- The body of the `try` block of the `POST /getToken` handler: per-
`auth_type` dispatch, with the branch-level `HTTPException(400)` checks. -/
def get_token_dispatch (env : ServerEnv) (request : TokenRequest) :
    Except HTTPErr TokenResponse :=
  if request.auth_type = "IAM" then
    if !(truthyS request.access_key && truthyS request.secret_key &&
        truthyS request.region) then
      .error ⟨400,
        "access_key, secret_key, and region are required for IAM authentication"⟩
    else
      .ok { authorization_header := env.sigv4Header,
            token_type := "AWS_IAM_SIGV4" }
  else if request.auth_type = "COGNITO" then
    if !(truthyS request.username && truthyS request.password &&
        truthyS request.client_id && truthyS request.region) then
      .error ⟨400,
        "username, password, client_id, and region are required for Cognito authentication"⟩
    else
      match get_cognito_token env with
      | .error e => .error e
      | .ok token =>
        .ok { authorization_header := "Bearer " ++ token,
              token_type := "COGNITO_JWT" }
  else if request.auth_type = "API_KEY" then
    if !truthyS request.api_key then
      .error ⟨400, "api_key is required for API_KEY authentication"⟩
    else
      .ok { authorization_header := request.api_key.getD "",
            token_type := "API_KEY" }
  else if request.auth_type = "LAMBDA" then
    if !(truthyS request.lambda_function_name &&
        truthyD request.lambda_payload && truthyS request.region) then
      .error ⟨400,
        "lambda_function_name, lambda_payload, and region are required for Lambda authentication"⟩
    else
      match get_lambda_token env with
      | .error e => .error e
      | .ok headers =>
        .ok { authorization_header := dictGetD headers "Authorization" "",
              token_type := "LAMBDA_CUSTOM",
              additional_headers := some (dictPop headers "Authorization") }
  else
    .error ⟨400, "Unsupported auth_type: " ++ request.auth_type⟩

/-- `POST /getToken`: the dispatch wrapped in the handler's top-level
`except Exception` clause.  Because `HTTPException` subclasses `Exception`,
this clause also catches the `HTTPException`s raised by the branches
themselves and re-raises every one of them as
`HTTPException(status_code=500, detail=str(e))`. -/
def get_token (env : ServerEnv) (request : TokenRequest) :
    Except HTTPErr TokenResponse :=
  match get_token_dispatch env request with
  | .ok r => .ok r
  | .error e => .error ⟨500, strHTTPErr e⟩

/-- A `ServerEnv` whose Lambda authorizer succeeded with status 200 and
returned the given context object. -/
def lambdaEnv (ctx : List (String × String)) : ServerEnv :=
  { sigv4Header := "", cognitoResult := .ok "",
    lambdaResult := .ok { statusCode := 200, body := none, context := ctx } }

/-- A well-formed LAMBDA token request. -/
def lambdaReq : TokenRequest :=
  { auth_type := "LAMBDA", lambda_function_name := some "authFn",
    lambda_payload := some [("k", "v")], region := some "us-east-1",
    gql_endpoint := "g", spec_endpoint := "s" }

/-- A `ServerEnv` for exercising the validation branches; its external-call
outcomes are never reached there. -/
def anyEnv : ServerEnv :=
  { sigv4Header := "sig", cognitoResult := .ok "tok", lambdaResult := .ok {} }

/-! ## GraphQL Documentation Generator CLI
(`utilities/generate_graphql_rst.py`)

`generate_headers` raises `ValueError` for each parameter-validation
failure; `generate_graphql_rst` builds the `auth_details` dict from its
CLI flags, calls `generate_headers`, and only then opens
`../docs/graphql.rst` for writing (the earlier `os.makedirs` touches the
directory, never the file).  Header values are `Option String` because the
`OPENID_CONNECT` branch stores `auth_details["id_token"]` verbatim, which
may be `None`.  The outcomes of the external calls (ambient credential
discovery, SigV4 signing, the interactive Cognito login and the two
smoke-test HTTP requests) are supplied through `CliEnv`; the smoke tests
only print and do not change the returned headers. -/

structure AuthDetails where
  api_key : Option String := none
  id_token : Option String := none
  access_key : Option String := none
  secret_key : Option String := none
  auth_token : Option String := none
  user_pool_id : Option String := none
  client_id : Option String := none
  username : Option String := none
  password : Option String := none
  deriving Repr, DecidableEq

structure CliEnv where
  /-- `boto3.Session().get_credentials()`: ambient access/secret keys. -/
  ambientCredentials : Option (String × String)
  /-- `aws_request.headers` after `SigV4Auth(...).add_auth` (the signed
  header map folded into the output by `headers.update`). -/
  signedHeaders : List (String × Option String)
  /-- `get_cognito_id_token` result; `None` when the provider rejected the
  credentials or none were found. -/
  cognitoIdToken : Option String
  /-- Status of the Cognito-branch smoke-test `requests.post`. -/
  cognitoStatus : Nat
  deriving Repr

/-- `d.update(upd)` for Python dicts. -/
def dictUpdate {β : Type} (d upd : List (String × β)) : List (String × β) :=
  upd.foldl (fun acc p => dictSet acc p.1 p.2) d

def generate_headers (env : CliEnv) (auth_type : String)
    (_region : Option String) (_endpoint : String)
    (auth_details : AuthDetails) :
    Except String (List (String × Option String)) :=
  let headers : List (String × Option String) :=
    [("Content-Type", some "application/json")]
  if auth_type = "API_KEY" then
    if !truthyS auth_details.api_key then
      .error "API Key is required for API_KEY authentication."
    else
      .ok (dictSet headers "x-api-key" auth_details.api_key)
  else if auth_type = "IAM" then
    if !truthyS auth_details.access_key ||
        !truthyS auth_details.secret_key then
      match env.ambientCredentials with
      | none =>
        .error "AWS credentials not found. Please provide access_key and secret_key."
      | some _ => .ok (dictUpdate headers env.signedHeaders)
    else
      .ok (dictUpdate headers env.signedHeaders)
  else if auth_type = "COGNITO_USER_POOLS" then
    if !truthyS auth_details.user_pool_id ||
        !truthyS auth_details.client_id then
      .error "UserPool ID and Client ID is not provided!"
    else
      match env.cognitoIdToken with
      | some tok =>
        if env.cognitoStatus = 200 then
          .ok (dictSet headers "Authorization" (some ("Bearer " ++ tok)))
        else .ok headers
      | none => .ok headers
  else if auth_type = "OPENID_CONNECT" then
    .ok (dictSet headers "Authorization" auth_details.id_token)
  else
    .error "Invalid authentication type. Supported types: API_KEY, COGNITO_USER_POOLS, IAM, OPENID_CONNECT."

def jsonValue : Option String → String
  | none => "null"
  | some s => "\"" ++ s ++ "\""

def jsonDumps (headers : List (String × Option String)) : String :=
  "\x7b" ++
    String.intercalate ", "
      (headers.map (fun p => "\"" ++ p.1 ++ "\": " ++ jsonValue p.2)) ++
    "\x7d"

/-- The text written to `../docs/graphql.rst` by `generate_graphql_rst`. -/
def graphqlRstContent (endpoint : String)
    (headers : List (String × Option String)) : String :=
  "GraphQL API Documentation\n==========================\n\n" ++
    ".. graphiql::\n    :endpoint: " ++ endpoint ++ "\n    :headers: " ++
    jsonDumps headers ++ "\n"

/-- `generate_graphql_rst`, with the filesystem reduced to the content of
its one target file `../docs/graphql.rst` (`none` = absent): the file is
opened for writing only after `generate_headers` has returned, so a
`ValueError` raised there propagates with the file untouched. -/
def generate_graphql_rst (env : CliEnv) (auth_type endpoint : String)
    (region : Option String) (auth_details : AuthDetails)
    (fs : Option String) : Option String × Except String Unit :=
  match generate_headers env auth_type region endpoint auth_details with
  | .error e => (fs, .error e)
  | .ok headers => (some (graphqlRstContent endpoint headers), .ok ())

/-- A `CliEnv` with no ambient credentials and a failed Cognito login. -/
def bareCliEnv : CliEnv :=
  { ambientCredentials := none, signedHeaders := [],
    cognitoIdToken := none, cognitoStatus := 0 }

/-- An IAM request missing `secret_key` and `region`. -/
def iamMissingReq : TokenRequest :=
  { auth_type := "IAM", access_key := some "AK",
    gql_endpoint := "g", spec_endpoint := "s" }

/-- A COGNITO request missing `client_id` and `region`. -/
def cognitoMissingReq : TokenRequest :=
  { auth_type := "COGNITO", username := some "u", password := some "p",
    gql_endpoint := "g", spec_endpoint := "s" }

/-- An API_KEY request missing `api_key`. -/
def apiKeyMissingReq : TokenRequest :=
  { auth_type := "API_KEY", gql_endpoint := "g", spec_endpoint := "s" }

/-- A LAMBDA request missing `lambda_payload` and `region`. -/
def lambdaMissingReq : TokenRequest :=
  { auth_type := "LAMBDA", lambda_function_name := some "authFn",
    gql_endpoint := "g", spec_endpoint := "s" }

end SphinxDoc

namespace SphinxDoc

/-! ## Fold lemmas for the v1 docstring field loop -/

theorem fieldsStep_summary (acc : DocSpecV1) (line : List Char) :
    (fieldsStep acc line).summary =
      ((matchField "summary:".toList line).map String.mk).getD acc.summary := by
  unfold fieldsStep
  rcases h1 : matchField "summary:".toList line with _ | v1 <;>
    rcases h2 : matchField "method:".toList line with _ | v2 <;>
      rcases h3 : matchField "description:".toList line with _ | v3 <;>
        simp [h1, h2, h3]

theorem fieldsStep_method (acc : DocSpecV1) (line : List Char) :
    (fieldsStep acc line).method =
      ((matchField "method:".toList line).map
        (fun v => some (String.mk v))).getD acc.method := by
  unfold fieldsStep
  rcases h1 : matchField "summary:".toList line with _ | v1 <;>
    rcases h2 : matchField "method:".toList line with _ | v2 <;>
      rcases h3 : matchField "description:".toList line with _ | v3 <;>
        simp [h1, h2, h3]

theorem fieldsStep_description (acc : DocSpecV1) (line : List Char) :
    (fieldsStep acc line).description =
      ((matchField "description:".toList line).map String.mk).getD
        acc.description := by
  unfold fieldsStep
  rcases h1 : matchField "summary:".toList line with _ | v1 <;>
    rcases h2 : matchField "method:".toList line with _ | v2 <;>
      rcases h3 : matchField "description:".toList line with _ | v3 <;>
        simp [h1, h2, h3]

theorem fieldsStep_responseSchema (acc : DocSpecV1) (line : List Char) :
    (fieldsStep acc line).responseSchema = acc.responseSchema := by
  unfold fieldsStep
  rcases h1 : matchField "summary:".toList line with _ | v1 <;>
    rcases h2 : matchField "method:".toList line with _ | v2 <;>
      rcases h3 : matchField "description:".toList line with _ | v3 <;>
        simp [h1, h2, h3]

theorem foldl_overwrite {α β : Type} (g : α → β) (l : List α) (x : β) :
    l.foldl (fun _ v => g v) x = ((l.getLast?).map g).getD x := by
  induction l generalizing x with
  | nil => rfl
  | cons a l ih =>
    rw [List.foldl_cons, ih]
    cases l with
    | nil => rfl
    | cons b bs =>
      rw [List.getLast?_cons_cons]
      rcases hz : (b :: bs).getLast? with _ | z
      · exact absurd (List.getLast?_eq_none_iff.mp hz) (by simp)
      · rfl

theorem foldl_fieldsStep_summary (lines : List (List Char)) (acc : DocSpecV1) :
    (lines.foldl fieldsStep acc).summary =
      (((lines.filterMap (matchField "summary:".toList)).getLast?).map
        String.mk).getD acc.summary := by
  rw [← foldl_overwrite]
  induction lines generalizing acc with
  | nil => rfl
  | cons l ls ih =>
    rw [List.foldl_cons, ih, fieldsStep_summary]
    rcases h : matchField "summary:".toList l with _ | v <;>
      simp only [List.filterMap_cons, h, Option.map_none', Option.map_some',
        Option.getD_none, Option.getD_some, List.foldl_cons]

theorem foldl_fieldsStep_method (lines : List (List Char)) (acc : DocSpecV1) :
    (lines.foldl fieldsStep acc).method =
      (((lines.filterMap (matchField "method:".toList)).getLast?).map
        (fun v => some (String.mk v))).getD acc.method := by
  rw [← foldl_overwrite]
  induction lines generalizing acc with
  | nil => rfl
  | cons l ls ih =>
    rw [List.foldl_cons, ih, fieldsStep_method]
    rcases h : matchField "method:".toList l with _ | v <;>
      simp only [List.filterMap_cons, h, Option.map_none', Option.map_some',
        Option.getD_none, Option.getD_some, List.foldl_cons]

theorem foldl_fieldsStep_description (lines : List (List Char))
    (acc : DocSpecV1) :
    (lines.foldl fieldsStep acc).description =
      (((lines.filterMap (matchField "description:".toList)).getLast?).map
        String.mk).getD acc.description := by
  rw [← foldl_overwrite]
  induction lines generalizing acc with
  | nil => rfl
  | cons l ls ih =>
    rw [List.foldl_cons, ih, fieldsStep_description]
    rcases h : matchField "description:".toList l with _ | v <;>
      simp only [List.filterMap_cons, h, Option.map_none', Option.map_some',
        Option.getD_none, Option.getD_some, List.foldl_cons]

theorem foldl_fieldsStep_responseSchema (lines : List (List Char))
    (acc : DocSpecV1) :
    (lines.foldl fieldsStep acc).responseSchema = acc.responseSchema := by
  induction lines generalizing acc with
  | nil => rfl
  | cons l ls ih => rw [List.foldl_cons, ih, fieldsStep_responseSchema]

/-! ## Lemmas and theorems for the Auth Token Issuance Service (C1, C5) -/

theorem dictSet_notMem {β : Type} (d : List (String × β)) (k : String) (v : β)
    (h : k ∉ d.map Prod.fst) : dictSet d k v = d ++ [(k, v)] := by
  induction d with
  | nil => rfl
  | cons p d ih =>
    obtain ⟨k', v'⟩ := p
    simp only [List.map_cons, List.mem_cons, not_or] at h
    have hne : k' ≠ k := fun he => h.1 he.symm
    rw [dictSet, if_neg hne, ih h.2, List.cons_append]

theorem string_append_left_cancel {s a b : String} (h : s ++ a = s ++ b) :
    a = b := by
  have hd := congrArg String.data h
  rw [String.data_append, String.data_append] at hd
  exact congrArg String.mk (List.append_cancel_left hd)

theorem xlambda_ne_auth (x : String) : "X-Lambda-" ++ x ≠ "Authorization" := by
  intro h
  have hd := congrArg String.data h
  rw [String.data_append] at hd
  have hX : ("X-Lambda-" : String).data = 'X' :: ("-Lambda-" : String).data :=
    rfl
  have hA : ("Authorization" : String).data =
      'A' :: ("uthorization" : String).data := rfl
  rw [hX, List.cons_append, hA] at hd
  injection hd with h1 _
  exact absurd h1 (by decide)

theorem lambdaLoop_append :
    ∀ (ctx acc : List (String × String)),
      (∀ p ∈ ctx, p.1 ≠ "authorizationToken" →
        ("X-Lambda-" ++ p.1) ∉ acc.map Prod.fst) →
      ctx.Pairwise (fun p q => p.1 ≠ q.1) →
      ctx.foldl
        (fun headers p =>
          if p.1 ≠ "authorizationToken" then
            dictSet headers ("X-Lambda-" ++ p.1) p.2
          else headers) acc =
      acc ++ (ctx.filter fun p => p.1 != "authorizationToken").map
        (fun p => ("X-Lambda-" ++ p.1, p.2)) := by
  intro ctx
  induction ctx with
  | nil => intro acc _ _; simp
  | cons p ctx ih =>
    intro acc hfresh hpw
    rw [List.foldl_cons, List.pairwise_cons] at *
    by_cases hp : p.1 = "authorizationToken"
    · rw [if_neg (not_not_intro hp),
        ih acc (fun q hq hq1 => hfresh q (List.mem_cons_of_mem _ hq) hq1)
          hpw.2]
      simp [List.filter_cons, hp]
    · have hp' : p.1 ≠ "authorizationToken" := hp
      rw [if_pos hp',
        dictSet_notMem acc ("X-Lambda-" ++ p.1) p.2
          (hfresh p (List.mem_cons_self _ _) hp'),
        ih (acc ++ [("X-Lambda-" ++ p.1, p.2)]) ?_ hpw.2]
      · simp [List.filter_cons, hp']
      · intro q hq hq1
        simp only [List.map_append, List.mem_append, List.map_cons,
          List.map_nil, List.mem_singleton, not_or]
        refine ⟨hfresh q (List.mem_cons_of_mem _ hq) hq1, fun he => ?_⟩
        exact (hpw.1 q hq) (string_append_left_cancel he).symm

theorem buildLambdaHeaders_eq (ctx : List (String × String))
    (hpw : ctx.Pairwise (fun p q => p.1 ≠ q.1)) :
    buildLambdaHeaders ctx =
      ("Authorization", dictGetD ctx "authorizationToken" "") ::
        (ctx.filter fun p => p.1 != "authorizationToken").map
          (fun p => ("X-Lambda-" ++ p.1, p.2)) := by
  unfold buildLambdaHeaders
  rw [lambdaLoop_append ctx
    [("Authorization", dictGetD ctx "authorizationToken" "")] ?_ hpw]
  · simp
  · intro q hq hq1
    simp only [List.map_cons, List.map_nil, List.mem_singleton]
    exact xlambda_ne_auth q.1

/-- The LAMBDA branch's successful response, for an arbitrary authorizer
context with pairwise-distinct keys. -/
theorem get_token_lambda_general (ctx : List (String × String))
    (hpw : ctx.Pairwise (fun p q => p.1 ≠ q.1)) :
    get_token (lambdaEnv ctx) lambdaReq =
      .ok { authorization_header := dictGetD ctx "authorizationToken" "",
            token_type := "LAMBDA_CUSTOM",
            additional_headers := some
              ((ctx.filter fun p => p.1 != "authorizationToken").map
                (fun p => ("X-Lambda-" ++ p.1, p.2))) } := by
  have hdisp : get_token_dispatch (lambdaEnv ctx) lambdaReq =
      .ok { authorization_header :=
              dictGetD (buildLambdaHeaders ctx) "Authorization" "",
            token_type := "LAMBDA_CUSTOM",
            additional_headers :=
              some (dictPop (buildLambdaHeaders ctx) "Authorization") } := rfl
  unfold get_token
  rw [hdisp]
  rw [buildLambdaHeaders_eq ctx hpw]
  simp [dictGetD, dictPop, List.find?_cons_of_pos, List.eraseP_cons_of_pos]

/-- C1 (the code contradicts the claim's — and its own — 400): for every
`auth_type` accepted by `POST /getToken`, a request that passes
outer-record validation but is missing a field required by the selected
scheme is answered with HTTP status **500**, not 400: the branch raises
`HTTPException(400, ...)` naming the missing fields, but the handler's
top-level `except Exception` catches it (HTTPException subclasses
Exception) and re-raises it as `HTTPException(500, str(e))`, so the client
receives a 500 whose detail is the stringified 400. -/
theorem c1_missing_fields_return_500 :
    get_token anyEnv iamMissingReq =
      .error ⟨500,
        "400: access_key, secret_key, and region are required for IAM authentication"⟩ ∧
    get_token anyEnv cognitoMissingReq =
      .error ⟨500,
        "400: username, password, client_id, and region are required for Cognito authentication"⟩ ∧
    get_token anyEnv apiKeyMissingReq =
      .error ⟨500, "400: api_key is required for API_KEY authentication"⟩ ∧
    get_token anyEnv lambdaMissingReq =
      .error ⟨500,
        "400: lambda_function_name, lambda_payload, and region are required for Lambda authentication"⟩ := by
  refine ⟨by decide, by decide, by decide, by decide⟩

/-- C5: for `auth_type = LAMBDA`, when the invoked authorizer returns the
context `{"authorizationToken": "T", "role": "admin"}`, the successful
response has `authorization_header = "T"`,
`token_type = "LAMBDA_CUSTOM"` and
`additional_headers = {"X-Lambda-role": "admin"}`; and in general (for any
context with pairwise-distinct keys) every context entry except the
authorization token itself appears in `additional_headers` prefixed
`X-Lambda-`, and the token entry itself does not appear there. -/
theorem c5_lambda_custom_response :
    get_token (lambdaEnv [("authorizationToken", "T"), ("role", "admin")])
        lambdaReq =
      .ok { authorization_header := "T", token_type := "LAMBDA_CUSTOM",
            additional_headers := some [("X-Lambda-role", "admin")] } ∧
    ∀ (ctx : List (String × String)),
      ctx.Pairwise (fun p q => p.1 ≠ q.1) →
      get_token (lambdaEnv ctx) lambdaReq =
        .ok { authorization_header := dictGetD ctx "authorizationToken" "",
              token_type := "LAMBDA_CUSTOM",
              additional_headers := some
                ((ctx.filter fun p => p.1 != "authorizationToken").map
                  (fun p => ("X-Lambda-" ++ p.1, p.2))) } :=
  ⟨by decide, get_token_lambda_general⟩

/-- Witness for `c5_lambda_custom_response`: the example context
`{"authorizationToken": "T", "role": "admin"}` has pairwise-distinct keys
and yields the stated response. -/
theorem c5_lambda_witness :
    ([("authorizationToken", "T"), ("role", "admin")] :
        List (String × String)).Pairwise (fun p q => p.1 ≠ q.1) ∧
    get_token (lambdaEnv [("authorizationToken", "T"), ("role", "admin")])
        lambdaReq =
      .ok { authorization_header :=
              dictGetD [("authorizationToken", "T"), ("role", "admin")]
                "authorizationToken" "",
            token_type := "LAMBDA_CUSTOM",
            additional_headers := some
              (([("authorizationToken", "T"), ("role", "admin")].filter
                  fun p => p.1 != "authorizationToken").map
                (fun p => ("X-Lambda-" ++ p.1, p.2))) } :=
  ⟨by decide, c5_lambda_custom_response.2 _ (by decide)⟩

/-! ## Theorems for the GraphQL Documentation Generator CLI (C8) -/

/-- C8: in the GraphQL Documentation Generator CLI, every
parameter-validation failure — missing `api_key` for `API_KEY`, no
credentials discoverable for `IAM`, missing `user_pool_id`/`client_id` for
`COGNITO_USER_POOLS`, and an unsupported `auth_type` value — raises an
invalid-input error inside `generate_headers`, before `graphql.rst` is
opened for writing; consequently, whenever `generate_headers` fails, the
target file is neither created nor modified. -/
theorem c8_validation_failures_leave_file_untouched :
    (∀ (env : CliEnv) (auth_type endpoint : String) (region : Option String)
        (ad : AuthDetails) (fs : Option String) (e : String),
      generate_headers env auth_type region endpoint ad = .error e →
      (generate_graphql_rst env auth_type endpoint region ad fs).1 = fs ∧
      (generate_graphql_rst env auth_type endpoint region ad fs).2 =
        .error e) ∧
    (∀ (env : CliEnv) (endpoint : String) (region : Option String)
        (ad : AuthDetails),
      truthyS ad.api_key = false →
      generate_headers env "API_KEY" region endpoint ad =
        .error "API Key is required for API_KEY authentication.") ∧
    (∀ (env : CliEnv) (endpoint : String) (region : Option String)
        (ad : AuthDetails),
      env.ambientCredentials = none →
      truthyS ad.access_key = false ∨ truthyS ad.secret_key = false →
      generate_headers env "IAM" region endpoint ad =
        .error
          "AWS credentials not found. Please provide access_key and secret_key.") ∧
    (∀ (env : CliEnv) (endpoint : String) (region : Option String)
        (ad : AuthDetails),
      truthyS ad.user_pool_id = false ∨ truthyS ad.client_id = false →
      generate_headers env "COGNITO_USER_POOLS" region endpoint ad =
        .error "UserPool ID and Client ID is not provided!") ∧
    (∀ (env : CliEnv) (endpoint : String) (region : Option String)
        (ad : AuthDetails) (auth_type : String),
      auth_type ∉ ["API_KEY", "IAM", "COGNITO_USER_POOLS", "OPENID_CONNECT"] →
      generate_headers env auth_type region endpoint ad =
        .error
          "Invalid authentication type. Supported types: API_KEY, COGNITO_USER_POOLS, IAM, OPENID_CONNECT.") := by
  refine ⟨?_, ?_, ?_, ?_, ?_⟩
  · intro env auth_type endpoint region ad fs e h
    unfold generate_graphql_rst
    rw [h]
    exact ⟨rfl, rfl⟩
  · intro env endpoint region ad h
    simp [generate_headers, h]
  · intro env endpoint region ad hamb h
    rcases h with h | h <;> simp [generate_headers, h, hamb]
  · intro env endpoint region ad h
    rcases h with h | h <;> simp [generate_headers, h]
  · intro env endpoint region ad auth_type h
    simp only [List.mem_cons, List.mem_singleton, not_or] at h
    obtain ⟨h1, h2, h3, h4, -⟩ := h
    simp [generate_headers, h1, h2, h3, h4]

/-- Witness for `c8_validation_failures_leave_file_untouched`: an
`API_KEY` run with no `api_key` and an unsupported-`auth_type` run both
fail inside `generate_headers`, and an existing `graphql.rst` keeps its
previous content. -/
theorem c8_validation_witness :
    truthyS ({} : AuthDetails).api_key = false ∧
    generate_headers bareCliEnv "API_KEY" none "ep" {} =
      .error "API Key is required for API_KEY authentication." ∧
    (generate_graphql_rst bareCliEnv "API_KEY" "ep" none {}
      (some "old")).1 = some "old" ∧
    generate_headers bareCliEnv "LAMBDA" none "ep" {} =
      .error
        "Invalid authentication type. Supported types: API_KEY, COGNITO_USER_POOLS, IAM, OPENID_CONNECT." ∧
    (generate_graphql_rst bareCliEnv "LAMBDA" "ep" none {} none).1 = none :=
  ⟨by decide,
   c8_validation_failures_leave_file_untouched.2.1 bareCliEnv "ep" none {}
     (by decide),
   (c8_validation_failures_leave_file_untouched.1 bareCliEnv "API_KEY" "ep"
     none {} (some "old")
     "API Key is required for API_KEY authentication." (by decide)).1,
   c8_validation_failures_leave_file_untouched.2.2.2.2 bareCliEnv "ep" none
     {} "LAMBDA" (by decide),
   (c8_validation_failures_leave_file_untouched.1 bareCliEnv "LAMBDA" "ep"
     none {} none
     "Invalid authentication type. Supported types: API_KEY, COGNITO_USER_POOLS, IAM, OPENID_CONNECT."
     (by decide)).1⟩

/-! ## Lemmas and theorems for the Express strategy's comment pairing (C3) -/

theorem findIdx2_decomp (a b : Char) :
    ∀ (s : List Char) (i : Nat), findIdx2 a b s = some i →
      s = s.take i ++ a :: b :: s.drop (i + 2) := by
  intro s
  induction s with
  | nil => intro i h; simp [findIdx2] at h
  | cons x t ih =>
    intro i h
    cases t with
    | nil => simp [findIdx2] at h
    | cons y rest =>
      rw [findIdx2] at h
      by_cases hab : x = a ∧ y = b
      · rw [if_pos hab] at h
        obtain rfl : i = 0 := by injection h with h'; omega
        obtain ⟨rfl, rfl⟩ := hab
        simp
      · rw [if_neg hab] at h
        rcases hmap : findIdx2 a b (y :: rest) with _ | i' <;> rw [hmap] at h
        · simp at h
        · simp only [Option.map_some', Option.some.injEq] at h
          obtain rfl : i = i' + 1 := h.symm
          have hd := ih i' hmap
          calc x :: y :: rest = x :: (y :: rest) := rfl
            _ = x :: ((y :: rest).take i' ++ a :: b :: (y :: rest).drop (i' + 2)) := by
                rw [← hd]
            _ = (x :: y :: rest).take (i' + 1) ++
                  a :: b :: (x :: y :: rest).drop (i' + 1 + 2) := by
                simp [List.take_succ_cons, List.drop_succ_cons]

theorem findIdx2_min (a b : Char) :
    ∀ (s : List Char) (i : Nat), findIdx2 a b s = some i →
      ∀ (pre post : List Char), s = pre ++ a :: b :: post →
        i ≤ pre.length := by
  intro s
  induction s with
  | nil => intro i h; simp [findIdx2] at h
  | cons x t ih =>
    intro i h pre post hs
    cases t with
    | nil =>
      simp [findIdx2] at h
    | cons y rest =>
      rw [findIdx2] at h
      by_cases hab : x = a ∧ y = b
      · rw [if_pos hab] at h
        obtain rfl : i = 0 := by injection h with h'; omega
        exact Nat.zero_le _
      · rw [if_neg hab] at h
        rcases hmap : findIdx2 a b (y :: rest) with _ | i' <;> rw [hmap] at h
        · simp at h
        · simp only [Option.map_some', Option.some.injEq] at h
          obtain rfl : i = i' + 1 := h.symm
          cases pre with
          | nil =>
            rw [List.nil_append] at hs
            injection hs with hx hrest
            injection hrest with hy _
            exact absurd ⟨hx, hy⟩ hab
          | cons z pre' =>
            rw [List.cons_append] at hs
            have h2 : y :: rest = pre' ++ a :: b :: post := by
              injection hs
            have := ih i' hmap pre' post h2
            simpa using Nat.succ_le_succ this

/-- The `re.search` comment lookup returns the body of the *first* comment
block of its argument: the text decomposes as `pre ++ "/*" ++ g ++ "*/" ++
post` where no `/*` opens earlier than `pre.length` and `g` runs to the
first closing `*/`. -/
theorem findComment_first (s g : List Char) (h : findComment s = some g) :
    ∃ pre post,
      s = pre ++ '/' :: '*' :: (g ++ '*' :: '/' :: post) ∧
      (∀ pre' post', s = pre' ++ '/' :: '*' :: post' →
        pre.length ≤ pre'.length) ∧
      (∀ g' post', g ++ '*' :: '/' :: post = g' ++ '*' :: '/' :: post' →
        g.length ≤ g'.length) := by
  unfold findComment at h
  rcases h1 : findIdx2 '/' '*' s with _ | i <;> rw [h1] at h <;>
    dsimp only at h
  · exact absurd h (by simp)
  rcases h2 : findIdx2 '*' '/' (s.drop (i + 2)) with _ | j <;> rw [h2] at h <;>
    dsimp only at h
  · exact absurd h (by simp)
  obtain rfl : g = (s.drop (i + 2)).take j := by
    injection h with h'
    exact h'.symm
  have hd1 := findIdx2_decomp '/' '*' s i h1
  have hd2 := findIdx2_decomp '*' '/' (s.drop (i + 2)) j h2
  refine ⟨s.take i, (s.drop (i + 2)).drop (j + 2), ?_, ?_, ?_⟩
  · conv_lhs => rw [hd1, hd2]
  · intro pre' post' hs
    have hmin := findIdx2_min '/' '*' s i h1 pre' post' hs
    have hlen : (s.take i).length ≤ i := by
      simp [List.length_take]
    omega
  · intro g' post' heq
    have ht : s.drop (i + 2) = g' ++ '*' :: '/' :: post' := by
      rw [hd2]; exact heq
    have hmin := findIdx2_min '*' '/' (s.drop (i + 2)) j h2 g' post' ht
    have hlen : ((s.drop (i + 2)).take j).length ≤ j := by
      simp [List.length_take]
    omega

/-- C3 counterexample: in the file
`/* A */ /* B */ app.get("/x", h)` the single route-registration match (at
offset 16) is paired with the docstring source `" A "` — the *first*
comment block of the file — while the nearest preceding comment block is
`" B "`; the claim that the nearest preceding block is paired is false. -/
theorem c3_counterexample :
    expressPairs twoCommentContent =
      [(16, "get", "/x", some " A ".toList)] ∧
    nearestPrecedingCommentSpec (twoCommentContent.take 16) =
      some " B ".toList ∧
    expressDocstringSource twoCommentContent 16 ≠
      nearestPrecedingCommentSpec (twoCommentContent.take 16) := by
  refine ⟨by decide, by decide, by decide⟩

/-- C3 (amended): for every `.ts`/`.js` input, the Express-oriented
strategy pairs each route-registration match of
`(app|router)\.(get|post|put|delete)\s*\(\s*['"]([^'"]+)['"]` with the
*first* `/* ... */` comment block of the text preceding the match (the
comment opening at the earliest position, its body running to the first
following `*/`) as that route's docstring source — not the nearest
preceding comment block. -/
theorem c3_pairing_is_first_comment (content : List Char)
    (m : Nat × String × String) (_hm : m ∈ routeMatches content)
    (g : List Char) (hg : expressDocstringSource content m.1 = some g) :
    ∃ pre post,
      content.take m.1 = pre ++ '/' :: '*' :: (g ++ '*' :: '/' :: post) ∧
      (∀ pre' post', content.take m.1 = pre' ++ '/' :: '*' :: post' →
        pre.length ≤ pre'.length) ∧
      (∀ g' post', g ++ '*' :: '/' :: post = g' ++ '*' :: '/' :: post' →
        g.length ≤ g'.length) :=
  findComment_first _ _ hg

/-- Witness for `c3_pairing_is_first_comment` on `twoCommentContent`: its
route match at offset 16 is paired with `" A "`, the first comment block of
the preceding text. -/
theorem c3_pairing_witness :
    (16, "get", "/x") ∈ routeMatches twoCommentContent ∧
    expressDocstringSource twoCommentContent 16 = some " A ".toList ∧
    ∃ pre post,
      twoCommentContent.take 16 =
        pre ++ '/' :: '*' :: (" A ".toList ++ '*' :: '/' :: post) ∧
      (∀ pre' post',
        twoCommentContent.take 16 = pre' ++ '/' :: '*' :: post' →
        pre.length ≤ pre'.length) ∧
      (∀ g' post',
        " A ".toList ++ '*' :: '/' :: post = g' ++ '*' :: '/' :: post' →
        " A ".toList.length ≤ g'.length) :=
  ⟨by decide, by decide,
   c3_pairing_is_first_comment twoCommentContent (16, "get", "/x")
     (by decide) " A ".toList (by decide)⟩

/-! ## Lemmas and theorems for OpenAPI Spec Generator v2 (C6, C7) -/

theorem enhance_foldl_countP (name : String) (pps : List ParamV2) :
    ∀ (params : List ParamV2) (existing : List String), name ∈ existing →
      ((pps.foldl enhanceStep (params, existing)).1.countP
          (fun q => q.name == name)) =
        params.countP (fun q => q.name == name) := by
  induction pps with
  | nil => intro params existing _; rfl
  | cons p pps ih =>
    intro params existing h
    rw [List.foldl_cons]
    by_cases hmem : p.name ∈ existing
    · simp only [enhanceStep, hmem, if_true, if_pos]
      exact ih params existing h
    · have hne : p.name ≠ name := fun he => hmem (he ▸ h)
      simp only [enhanceStep, hmem, if_neg, not_false_iff]
      rw [ih (params ++ [p]) (existing ++ [p.name])
        (List.mem_append_left _ h), List.countP_append]
      simp [hne]

/-- Sample endpoint record used to instantiate the v2 assembly theorems. -/
def sampleEndpoint : EndpointInfo :=
  { path := "/a", methods := ["GET"], summary := "s", description := "d",
    parameters := [], request_schema := {}, response_schema := {},
    content_types := ["application/json"], security := [], errors := [] }

/-- C6: OpenAPI Spec Generator v2's path-parameter enrichment, applied to an
endpoint whose path is `/users/{id}/posts/<post_id>` and with no
docstring-declared parameters, adds exactly two parameters named `id` and
`post_id`, each with `in = path`, `required = true` and schema type
`string`; and for any path token whose exact name was already declared
among the endpoint's docstring parameters, no second parameter of that
name is added (the count of parameters bearing that name is unchanged). -/
theorem c6_path_parameter_enrichment :
    (enhance_parameters
        { path := "/users/\x7bid\x7d/posts/<post_id>", methods := ["GET"],
          summary := "", description := "", parameters := [],
          request_schema := {}, response_schema := {},
          content_types := ["application/json"], security := [],
          errors := [] }).parameters =
      [{ name := "id", in_ := "path", required := true,
         schemaType := "string", description := "Path parameter: id" },
       { name := "post_id", in_ := "path", required := true,
         schemaType := "string", description := "Path parameter: post_id" }] ∧
    ∀ (e : EndpointInfo) (name : String),
      name ∈ e.parameters.map (fun p => p.name) →
      (enhance_parameters e).parameters.countP (fun q => q.name == name) =
        e.parameters.countP (fun q => q.name == name) := by
  constructor
  · decide
  · intro e name h
    unfold enhance_parameters
    exact enhance_foldl_countP name _ _ _ h

/-- An endpoint whose docstring already declares a query parameter `id`
and whose path contains the token `{id}` — instantiation data for
`c6_path_parameter_enrichment`. -/
def declaredIdParam : ParamV2 :=
  { name := "id", in_ := "query", required := false,
    schemaType := "string", description := "The id" }

def endpointWithDeclaredId : EndpointInfo :=
  { path := "/users/\x7bid\x7d", methods := ["GET"], summary := "",
    description := "", parameters := [declaredIdParam],
    request_schema := {}, response_schema := {},
    content_types := ["application/json"], security := [], errors := [] }

/-- Witness for the hypothesis of `c6_path_parameter_enrichment`:
enrichment leaves the count of `id`-named parameters of
`endpointWithDeclaredId` unchanged. -/
theorem c6_enrichment_witness :
    "id" ∈ endpointWithDeclaredId.parameters.map (fun p => p.name) ∧
    (enhance_parameters endpointWithDeclaredId).parameters.countP
        (fun q => q.name == "id") =
      endpointWithDeclaredId.parameters.countP (fun q => q.name == "id") :=
  ⟨by decide, c6_path_parameter_enrichment.2 _ "id" (by decide)⟩

/-- C7: in OpenAPI Spec Generator v2's document assembly, every operation
built for a manifest group labelled `api_key` carries
`security = [{"ApiKeyAuth": []}]`, every operation from a `cognito` group
carries `security = [{"CognitoAuth": []}]`, and operations from a group
with any other label carry no security entry at all. -/
theorem c7_security_injection :
    (∀ (endpoints : List EndpointInfo) (x : String × String × OperationV2),
      x ∈ assembleGroup "api_key" endpoints →
        x.2.2.security = some [("ApiKeyAuth", [])]) ∧
    (∀ (endpoints : List EndpointInfo) (x : String × String × OperationV2),
      x ∈ assembleGroup "cognito" endpoints →
        x.2.2.security = some [("CognitoAuth", [])]) ∧
    (∀ (label : String) (endpoints : List EndpointInfo)
        (x : String × String × OperationV2),
      label ≠ "api_key" → label ≠ "cognito" →
      x ∈ assembleGroup label endpoints → x.2.2.security = none) := by
  refine ⟨?_, ?_, ?_⟩
  · intro endpoints x hx
    simp only [assembleGroup, List.mem_flatMap, List.mem_map] at hx
    obtain ⟨e, -, m, -, rfl⟩ := hx
    simp [buildOperationV2]
  · intro endpoints x hx
    simp only [assembleGroup, List.mem_flatMap, List.mem_map] at hx
    obtain ⟨e, -, m, -, rfl⟩ := hx
    simp [buildOperationV2]
  · intro label endpoints x h1 h2 hx
    simp only [assembleGroup, List.mem_flatMap, List.mem_map] at hx
    obtain ⟨e, -, m, -, rfl⟩ := hx
    simp [buildOperationV2, h1, h2]

/-- Witness for `c7_security_injection`: the single operation of a
one-endpoint group, under labels `api_key`, `cognito` and `iam`. -/
theorem c7_security_witness :
    ("/a", "get", buildOperationV2 "api_key" sampleEndpoint) ∈
      assembleGroup "api_key" [sampleEndpoint] ∧
    (buildOperationV2 "api_key" sampleEndpoint).security =
      some [("ApiKeyAuth", [])] ∧
    ("/a", "get", buildOperationV2 "cognito" sampleEndpoint) ∈
      assembleGroup "cognito" [sampleEndpoint] ∧
    (buildOperationV2 "cognito" sampleEndpoint).security =
      some [("CognitoAuth", [])] ∧
    ("/a", "get", buildOperationV2 "iam" sampleEndpoint) ∈
      assembleGroup "iam" [sampleEndpoint] ∧
    (buildOperationV2 "iam" sampleEndpoint).security = none :=
  ⟨by decide,
   c7_security_injection.1 [sampleEndpoint]
     ("/a", "get", buildOperationV2 "api_key" sampleEndpoint) (by decide),
   by decide,
   c7_security_injection.2.1 [sampleEndpoint]
     ("/a", "get", buildOperationV2 "cognito" sampleEndpoint) (by decide),
   by decide,
   c7_security_injection.2.2 "iam" [sampleEndpoint]
     ("/a", "get", buildOperationV2 "iam" sampleEndpoint) (by decide)
     (by decide) (by decide)⟩

/-! ## Theorems for the v1 docstring parser (C2, C10) -/

/-- C2 counterexample: on a docstring with two `Summary:` lines, v1's parser
keeps the value of the *second* (last) line, so the claim that the first
matching line wins and later duplicates are ignored is false as stated. -/
theorem c2_counterexample :
    (parseDocstringV1 "Summary: A\nSummary: B").summary = "B" ∧
    (parseDocstringV1 "Summary: A\nSummary: B").summary ≠ "A" := by
  decide

/-- C2 (amended): in OpenAPI Spec Generator v1's docstring parser, for each
of the single-line fields `Summary:`, `Method:`, `Description:` matched
case-insensitively, when a docstring contains the same field on more than
one line, the value taken is the one from the *last* matching line — every
earlier occurrence is overwritten by the later one (with the empty string,
absence, resp. the full docstring as the value when no line matches). -/
theorem c2_single_line_fields_last_wins (ds : String) :
    (parseDocstringV1 ds).summary =
      ((((docLinesV1 ds).filterMap
        (matchField "summary:".toList)).getLast?).map String.mk).getD "" ∧
    (parseDocstringV1 ds).method =
      (((docLinesV1 ds).filterMap
        (matchField "method:".toList)).getLast?).map String.mk ∧
    (parseDocstringV1 ds).description =
      ((((docLinesV1 ds).filterMap
        (matchField "description:".toList)).getLast?).map String.mk).getD ds := by
  have hsum := foldl_fieldsStep_summary (docLinesV1 ds)
    { summary := "", method := none, description := ds, responseSchema := {} }
  have hmeth := foldl_fieldsStep_method (docLinesV1 ds)
    { summary := "", method := none, description := ds, responseSchema := {} }
  have hdesc := foldl_fieldsStep_description (docLinesV1 ds)
    { summary := "", method := none, description := ds, responseSchema := {} }
  refine ⟨?_, ?_, ?_⟩ <;>
    rcases h1 : listIndex? "Request:".toList (docLinesV1 ds) with _ | i <;>
      rcases h2 : listIndex? "Response:".toList (docLinesV1 ds) with _ | j <;>
        · simp only [parseDocstringV1, h1, h2] at hsum hmeth hdesc ⊢
          first
          | exact hsum
          | (rw [hmeth]
             rcases ((docLinesV1 ds).filterMap
               (matchField "method:".toList)).getLast? with _ | v <;> rfl)
          | exact hdesc

/-- C10: v1's docstring parser extracts Request/Response property schemas
only when both literal marker lines `Request:` and `Response:` are present;
when exactly one of the two markers is present, no properties are extracted
and the response schema silently stays at its default open-object shape
(`type: object`, no `properties` key), with no error reported (the parser
is a total function). -/
theorem c10_response_schema_requires_both_markers (ds : String)
    (h : (listIndex? "Request:".toList (docLinesV1 ds)).isSome ≠
      (listIndex? "Response:".toList (docLinesV1 ds)).isSome) :
    (parseDocstringV1 ds).responseSchema =
      { type := "object", properties := none } := by
  rcases h1 : listIndex? "Request:".toList (docLinesV1 ds) with _ | i <;>
    rcases h2 : listIndex? "Response:".toList (docLinesV1 ds) with _ | j
  · simp only [parseDocstringV1, h1, h2, foldl_fieldsStep_responseSchema]
  · simp only [parseDocstringV1, h1, h2, foldl_fieldsStep_responseSchema]
  · simp only [parseDocstringV1, h1, h2, foldl_fieldsStep_responseSchema]
  · rw [h1, h2] at h
    simp at h

/-- Witness for `c10_response_schema_requires_both_markers`: the docstring
`"Request:\nfoo: bar"` has the `Request:` marker but no `Response:` marker,
and its parsed response schema is the default open object. -/
theorem c10_response_schema_witness :
    ((listIndex? "Request:".toList (docLinesV1 "Request:\nfoo: bar")).isSome ≠
      (listIndex? "Response:".toList (docLinesV1 "Request:\nfoo: bar")).isSome) ∧
    (parseDocstringV1 "Request:\nfoo: bar").responseSchema =
      { type := "object", properties := none } :=
  ⟨by decide, c10_response_schema_requires_both_markers _ (by decide)⟩

/-! ## Theorems for the sample modules and the JS generator -/

/-- C9: in the mirrored sample modules' `func4(flag_str, base, enabled)`,
when `enabled` is true and `flag_str = "Y"`, module A (shapes) returns
`base * 3` and module B (sweets) returns `base / 3` by exact division;
in particular `func4("Y", 5, True)` is `15` in A and `5/3` in B; and for
every `flag_str` and `base`, both modules return the literal `10`
whenever `enabled` is false. -/
theorem c9_func4_mirrored :
    shape1.file1_func4 "Y" 5 true = 15 ∧
    sweet2.file1_func4 "Y" 5 true = 5 / 3 ∧
    (∀ base : Int, shape1.file1_func4 "Y" base true = base * 3) ∧
    (∀ base : Int, sweet2.file1_func4 "Y" base true = (base : Rat) / 3) ∧
    (∀ (s : String) (base : Int), shape1.file1_func4 s base false = 10) ∧
    (∀ (s : String) (base : Int), sweet2.file1_func4 s base false = 10) := by
  refine ⟨by decide, by norm_num [sweet2.file1_func4], ?_, ?_, ?_, ?_⟩
  · intro base; simp [shape1.file1_func4]
  · intro base; simp [sweet2.file1_func4]
  · intro s base; simp [shape1.file1_func4]
  · intro s base; simp [sweet2.file1_func4]

/-- C4: the JavaScript Reference Generator, on a file containing the lines
`function foo() {}` and `async function bar() {}`, collects as names the
text between the `function` keyword and the following brace, trimmed
(here `foo()` and `bar()`), and the emitted page lists both `module.foo`
and `module.bar`; a file whose functions are all arrow expressions yields
zero discovered functions, and the empty-but-valid page (title, `=`
underline, module declaration, no autofunction entries) is still
produced. -/
theorem c4_js_reference_generator :
    extract_functions_from_js
        "function foo() \x7b\x7d\nasync function bar() \x7b\x7d" =
      ["foo()", "bar()"] ∧
    (∃ a b : String,
      buildRstForModule "module"
          "function foo() \x7b\x7d\nasync function bar() \x7b\x7d" =
        a ++ "module.foo" ++ b) ∧
    (∃ a b : String,
      buildRstForModule "module"
          "function foo() \x7b\x7d\nasync function bar() \x7b\x7d" =
        a ++ "module.bar" ++ b) ∧
    extract_functions_from_js
        "const foo = () => \x7b\x7d\nconst bar = async () => 1" = [] ∧
    buildRstForModule "module"
        "const foo = () => \x7b\x7d\nconst bar = async () => 1" =
      "module\n======\n\n.. js:module:: module\n\n" := by
  refine ⟨by decide, ?_, ?_, by decide, by decide⟩
  · exact ⟨"module\n======\n\n.. js:module:: module\n\n.. js:autofunction:: ",
      "()\n\n.. js:autofunction:: module.bar()\n\n", by decide⟩
  · exact ⟨"module\n======\n\n.. js:module:: module\n\n.. js:autofunction:: module.foo()\n\n.. js:autofunction:: ",
      "()\n\n", by decide⟩

end SphinxDoc
